import Mathlib

/-!
Verification of the KaaL seL4 wrapper entry point
(`examples/my-kaal-system/wrapper/main.c`).

The wrapper obtains the seL4 boot-information record from
`platsupport_get_bootinfo()`, prints a diagnostic summary of the fields it
reads (`ipcBuffer`, `empty.start`, `empty.end`, `userImageFrames.start`,
`userImageFrames.end`), transfers control to the external Rust entry point
`kaal_main(info)`, and — should that call ever return — prints
`"ERROR: kaal_main returned!"` and returns exit code 1.

The embedding models one execution of `main` as a trace of observable
events (each `printf` output, the single `kaal_main` call with the record
passed to it) together with a final outcome.  The behaviour of the opaque
external collaborator `kaal_main` is a boolean parameter: either it honours
its never-returns contract, or it returns.
-/

namespace KaaLWrapper

/-- Half-open range of capability slots, mirroring seL4's `seL4_SlotRegion`
with its two words `start` and `end`. -/
structure SlotRegion where
  start : Nat
  «end» : Nat
  deriving DecidableEq, Repr

/-- The boot-information record, restricted to the fields `main` reads.
The real `seL4_BootInfo` has further fields; `main` never touches them, so
they are irrelevant to every claim here. -/
structure SeL4_BootInfo where
  ipcBuffer : Nat
  empty : SlotRegion
  userImageFrames : SlotRegion
  deriving DecidableEq, Repr

/-- Rendering of a machine word by `printf`'s `%p`, as glibc does for a
pointer: `0x` followed by lower-case hexadecimal digits. -/
def hexRepr (n : Nat) : String :=
  "0x" ++ String.mk (Nat.toDigits 16 n)

/-- The diagnostic lines `main` prints, one list entry per `printf` call,
copied from the format strings in `main.c` with `%lu` rendered in decimal
and `%p` rendered by `hexRepr`. -/
def summaryLines (info : SeL4_BootInfo) : List String :=
  [ "\n"
  , "===========================================\n"
  , "  KaaL Root Task Starting\n"
  , "===========================================\n"
  , "  Boot Info:\n"
  , "    IPC Buffer:      " ++ hexRepr info.ipcBuffer ++ "\n"
  , "    Empty Slots:     [" ++ Nat.repr info.empty.start ++ "-"
      ++ Nat.repr info.empty.«end» ++ ")\n"
  , "    User Image:      [" ++ hexRepr info.userImageFrames.start ++ "-"
      ++ hexRepr info.userImageFrames.«end» ++ ")\n"
  , "===========================================\n\n" ]

/-- Observable events of one execution of `main`: a line written to the
diagnostic output, or the control transfer to `kaal_main` carrying the
record that is passed by reference. -/
inductive Event where
  | output (s : String)
  | callKaalMain (info : SeL4_BootInfo)
  deriving DecidableEq, Repr

/-- How an execution of `main` ends: control left through `kaal_main` and
never came back (`diverged`), or `main` returned an exit code to its
caller (`returned`). These are the only ways the code can end; `main.c`
contains no halt or idle loop. -/
inductive Outcome where
  | diverged
  | returned (code : Int)
  deriving DecidableEq, Repr

/-- The full observable behaviour of one execution of `main`. -/
structure RunResult where
  trace : List Event
  outcome : Outcome
  deriving DecidableEq, Repr

/-- One execution of `main` from the point where `platsupport_get_bootinfo`
has returned the record `info`.  `kaalReturns` models the opaque external
entry point: `false` means `kaal_main` honours its never-returns contract,
`true` means it returns.  Straight from `main.c`: print the summary, call
`kaal_main(info)`, and if it returns print the error line and return 1. -/
def mainRun (kaalReturns : Bool) (info : SeL4_BootInfo) : RunResult :=
  let tr := (summaryLines info).map Event.output ++ [Event.callKaalMain info]
  if kaalReturns then
    { trace := tr ++ [Event.output "ERROR: kaal_main returned!\n"]
      outcome := Outcome.returned 1 }
  else
    { trace := tr
      outcome := Outcome.diverged }

/-- `main` including the accessor call.  The pointer returned by
`platsupport_get_bootinfo` is modelled as an `Option`: `none` is a null
result (the environment could not supply a record).  `main.c` performs no
check on the pointer and immediately reads its fields, so execution has
defined behaviour only in the `some` case; the `Option.map` records that
partiality — it is not a check present in the code. -/
def mainEntry (kaalReturns : Bool) (fetched : Option SeL4_BootInfo) :
    Option RunResult :=
  Option.map (mainRun kaalReturns) fetched

/-- The records passed to `kaal_main` in a trace, in order. -/
def callArgs : List Event → List SeL4_BootInfo
  | [] => []
  | Event.output _ :: es => callArgs es
  | Event.callKaalMain info :: es => info :: callArgs es

/-- Everything written to the diagnostic output in a trace, concatenated. -/
def renderedOut : List Event → String
  | [] => ""
  | Event.output s :: es => s ++ renderedOut es
  | Event.callKaalMain _ :: es => renderedOut es

/-- `leadsWith p s` is true when the character list `p` is an initial
segment of `s`. -/
def leadsWith : List Char → List Char → Bool
  | [], _ => true
  | _ :: _, [] => false
  | c :: p, d :: s => c == d && leadsWith p s

/-- `containsSeg p s` is true when `p` occurs contiguously inside `s`. -/
def containsSeg (p : List Char) : List Char → Bool
  | [] => p.isEmpty
  | d :: s => leadsWith p (d :: s) || containsSeg p s

/-- `strContains pat s` is true when `pat` occurs as a contiguous substring
of `s`. -/
def strContains (pat s : String) : Bool :=
  containsSeg pat.data s.data

/-- Spec-side rendering (for comparison with the code) of the
`BootInfoUnavailable` failure behaviour the specification prescribes when
the accessor cannot supply a record: the execution is defined, its
diagnostic output mentions the failure kind, and control is never
transferred. -/
def failsWithBootInfoUnavailable (r : Option RunResult) : Prop :=
  ∃ res, r = some res ∧
    (∃ s, Event.output s ∈ res.trace ∧
      strContains "BootInfoUnavailable" s = true) ∧
    callArgs res.trace = []

/-- Concrete records used at counterexamples and witnesses. -/
def rec1 : SeL4_BootInfo := ⟨0, ⟨300, 50⟩, ⟨0, 0⟩⟩

def rec2 : SeL4_BootInfo := ⟨4096, ⟨1, 2⟩, ⟨3, 4⟩⟩

def rec3 : SeL4_BootInfo := ⟨4096, ⟨10, 256⟩, ⟨16384, 32768⟩⟩

def rec5 : SeL4_BootInfo := ⟨1, ⟨2, 3⟩, ⟨4, 5⟩⟩

def rec7 : SeL4_BootInfo := ⟨4096, ⟨10, 256⟩, ⟨16384, 32768⟩⟩

def rec8 : SeL4_BootInfo := ⟨8192, ⟨7, 9⟩, ⟨11, 13⟩⟩

/-- `callArgs` of a run of `main`: the record is handed to `kaal_main`
exactly once, whatever the record and whatever `kaal_main` then does. -/
theorem callArgs_mainRun (k : Bool) (b : SeL4_BootInfo) :
    callArgs (mainRun k b).trace = [b] := by
  cases k <;> simp [mainRun, summaryLines, callArgs]

/-- C1 (counterexample): the record `rec1` violates the empty-slot range
invariant (`end < start`), yet `main` still invokes `kaal_main` on it —
refuting the claim that for such records the external entry point is never
invoked and a `Fatal(MalformedBootInfo)` state is reached. -/
theorem C1_counterexample :
    rec1.empty.«end» < rec1.empty.start ∧
    Event.callKaalMain rec1 ∈ (mainRun false rec1).trace := by
  decide

/-- C1 (amended): `main` performs no range validation at all — even for a
record whose empty slot range violates `start <= end`, it invokes
`kaal_main` exactly once with that record; no `Fatal(MalformedBootInfo)`
path exists in the code. -/
theorem C1_no_validation (k : Bool) (b : SeL4_BootInfo)
    (h : b.empty.«end» < b.empty.start) :
    callArgs (mainRun k b).trace = [b] := by
  cases k <;> simp [mainRun, summaryLines, callArgs]

/-- C1 (witness): the amended statement at the concrete malformed record
`rec1 = {empty := [300, 50)}`. -/
theorem C1_witness :
    rec1.empty.«end» < rec1.empty.start ∧
    callArgs (mainRun false rec1).trace = [rec1] :=
  ⟨by decide, C1_no_validation false rec1 (by decide)⟩

/-- C2 (counterexample): when `kaal_main` returns, `main` does not halt —
it returns exit code 1 to its caller, refuting the claim that it enters a
permanently halted, non-terminating state and never returns an exit
code. -/
theorem C2_counterexample :
    (mainRun true rec2).outcome = Outcome.returned 1 := by
  decide

/-- C2 (amended): if the external entry point `kaal_main` returns, `main`
emits the diagnostic `"ERROR: kaal_main returned!"` and then returns exit
code 1 to its own caller; it does not enter a halted state. -/
theorem C2_return_path (b : SeL4_BootInfo) :
    (mainRun true b).trace =
      (summaryLines b).map Event.output ++
        [Event.callKaalMain b, Event.output "ERROR: kaal_main returned!\n"] ∧
    (mainRun true b).outcome = Outcome.returned 1 := by
  simp [mainRun]

/-- C3 (confirmed): for every record satisfying both range invariants,
`main` invokes `kaal_main` exactly once, and the argument passed is the
input record itself — no field mutated between receipt and the call. -/
theorem C3_transfer_once (k : Bool) (b : SeL4_BootInfo)
    (h1 : b.empty.start ≤ b.empty.«end»)
    (h2 : b.userImageFrames.start ≤ b.userImageFrames.«end») :
    callArgs (mainRun k b).trace = [b] := by
  cases k <;> simp [mainRun, summaryLines, callArgs]

/-- C3 (witness): the theorem at the concrete valid record `rec3`. -/
theorem C3_witness :
    rec3.empty.start ≤ rec3.empty.«end» ∧
    rec3.userImageFrames.start ≤ rec3.userImageFrames.«end» ∧
    callArgs (mainRun false rec3).trace = [rec3] :=
  ⟨by decide, by decide, C3_transfer_once false rec3 (by decide) (by decide)⟩

/-- C4 (counterexample): when the accessor cannot supply a record (null
result), `main` does not fail with a `BootInfoUnavailable` diagnostic —
it has no defined behaviour at all, because it dereferences the pointer
unchecked. -/
theorem C4_counterexample :
    ¬ failsWithBootInfoUnavailable (mainEntry false none) := by
  simp [failsWithBootInfoUnavailable, mainEntry]

/-- C4 (amended): `main` performs no availability check and has no
`BootInfoUnavailable` error path: if the accessor yields no record,
execution has no defined behaviour (the unguarded field reads), so no
fallback value is used and no `BootInfoUnavailable` diagnostic is ever
produced. -/
theorem C4_no_check (k : Bool) :
    mainEntry k none = none ∧
    ¬ failsWithBootInfoUnavailable (mainEntry k none) := by
  refine ⟨rfl, ?_⟩
  simp [failsWithBootInfoUnavailable, mainEntry]

/-- C5 (counterexample): an execution in which `kaal_main` returns ends
with `main` returning exit code 1 to its caller — it does not end in
`Transferred` or in a halted `Fatal` state, refuting the claimed state
machine (which also posits a validation phase the code does not have). -/
theorem C5_counterexample :
    (mainRun true rec5).outcome = Outcome.returned 1 := by
  decide

/-- C5 (amended): every execution follows
`Start -> Summarizing -> Transferring -> {Transferred | ReturnedError(1)}`:
the full summary strictly precedes the single call to `kaal_main`, there is
no validation phase, and the unexpected-return path emits a diagnostic and
returns exit code 1 instead of halting. -/
theorem C5_machine (k : Bool) (b : SeL4_BootInfo) :
    (mainRun k b).trace =
      (summaryLines b).map Event.output ++ [Event.callKaalMain b] ++
        (if k then [Event.output "ERROR: kaal_main returned!\n"] else []) ∧
    (mainRun k b).outcome =
      (if k then Outcome.returned 1 else Outcome.diverged) := by
  cases k <;> simp [mainRun]

/-- C6 (confirmed): the rendered summary contains, verbatim, the IPC
buffer address, the empty slot range as the half-open interval
`[start-end)` with its exact decimal `start` and `end` values, and the
user-image frame range as the half-open interval `[start-end)` with its
exact values rendered as `%p` pointers. -/
theorem C6_summary_fields (k : Bool) (b : SeL4_BootInfo) :
    Event.output ("    IPC Buffer:      " ++ hexRepr b.ipcBuffer ++ "\n")
      ∈ (mainRun k b).trace ∧
    Event.output ("    Empty Slots:     [" ++ Nat.repr b.empty.start ++ "-"
        ++ Nat.repr b.empty.«end» ++ ")\n") ∈ (mainRun k b).trace ∧
    Event.output ("    User Image:      ["
        ++ hexRepr b.userImageFrames.start ++ "-"
        ++ hexRepr b.userImageFrames.«end» ++ ")\n")
      ∈ (mainRun k b).trace := by
  cases k <;> simp [mainRun, summaryLines]

/-- C7 (confirmed): on the record `{ipcBufferAddress := 0x1000,
emptySlotRange := [10, 256)}` with `kaal_main` honouring its contract,
`main` invokes `kaal_main` exactly once with that same record, the
diagnostic output contains `"10"` and `"256"`, and the run ends with
control transferred (no halt, no error return). -/
theorem C7_scenario :
    callArgs (mainRun false rec7).trace = [rec7] ∧
    strContains "10" (renderedOut (mainRun false rec7).trace) = true ∧
    strContains "256" (renderedOut (mainRun false rec7).trace) = true ∧
    (mainRun false rec7).outcome = Outcome.diverged := by
  decide

/-- C8 (confirmed): the handoff is deterministic — two runs of `main` on
the same record, with the same behaviour of the external entry point,
produce identical traces (hence identical diagnostic output and identical
argument to `kaal_main`) and identical outcomes. -/
theorem C8_deterministic (k : Bool) (b b' : SeL4_BootInfo) (h : b = b') :
    mainRun k b = mainRun k b' := by
  rw [h]

/-- C8 (witness): determinism applied at the concrete record `rec8`. -/
theorem C8_witness : mainRun false rec8 = mainRun false rec8 :=
  C8_deterministic false rec8 rec8 rfl

/-- C9 (confirmed): for every record — including records whose ranges
violate `start <= end` — the complete diagnostic summary is emitted,
unconditionally and strictly before the call to `kaal_main`. -/
theorem C9_summary_before_call (k : Bool) (b : SeL4_BootInfo) :
    ∃ rest, (mainRun k b).trace =
      (summaryLines b).map Event.output ++ [Event.callKaalMain b] ++ rest := by
  cases k
  · exact ⟨[], by simp [mainRun]⟩
  · exact ⟨[Event.output "ERROR: kaal_main returned!\n"], by simp [mainRun]⟩

/-- C10 (confirmed): `main` reads the record's fields with no null (or
shape) check: when the accessor returns a null pointer the execution has
no defined behaviour, and when it returns any record — with no condition
whatsoever on its fields — `main` runs on it directly. -/
theorem C10_unguarded_reads (k : Bool) :
    mainEntry k none = none ∧
    ∀ b : SeL4_BootInfo, mainEntry k (some b) = some (mainRun k b) :=
  ⟨rfl, fun _ => rfl⟩

end KaaLWrapper
